import Mathlib

/-!
Verification development for the SQLiteWrapper header (SQLiteWrapper.h).

The wrapper is a thin, type-driven layer over the SQLite C API.  The
definitions below are a shallow embedding of the wrapper's own logic:

* the per-thread, per-query prepared-statement cache
  (PreparedStmtCache::internal_get / internal_put),
* the bind dispatcher inside Database::query,
* the user-converter pre-pass of Database::query (user_serialize_fn),
* the result cursor QueryResult (constructor, operator(), resultCode,
  destructor, move assignment, default constructor).

The SQLite engine itself is an external collaborator; its calls
(sqlite3_step, sqlite3_column_*, sqlite3_prepare_v3, sqlite3_open,
sqlite3_clear_bindings, sqlite3_reset) are modelled abstractly: a prepared
statement carries the list of result rows its execution produces, a cursor
position, and the terminal code its final step reports.  Engine calls whose
outcome is environment-dependent (open, prepare) are parameterized by the
return code the engine would give.
-/

namespace SQLiteWrapper

/-- Result code SQLITE_OK from sqlite3.h. -/
def SQLITE_OK : Int := 0

/-- Result code SQLITE_ERROR from sqlite3.h. -/
def SQLITE_ERROR : Int := 1

/-- Result code SQLITE_BUSY from sqlite3.h. -/
def SQLITE_BUSY : Int := 5

/-- Result code SQLITE_ROW from sqlite3.h: a step produced a row. -/
def SQLITE_ROW : Int := 100

/-- Result code SQLITE_DONE from sqlite3.h: a step found no more rows. -/
def SQLITE_DONE : Int := 101

/-- Column type code SQLITE_INTEGER from sqlite3.h. -/
def SQLITE_INTEGER : Int := 1

/-- Column type code SQLITE_TEXT from sqlite3.h. -/
def SQLITE_TEXT : Int := 3

/-- Column type code SQLITE_BLOB from sqlite3.h. -/
def SQLITE_BLOB : Int := 4

/-- Column type code SQLITE_NULL from sqlite3.h. -/
def SQLITE_NULL : Int := 5

/-- A value held in one column of an SQLite row (engine model). -/
inductive SQLValue : Type
  | integer (n : Int)
  | text (s : String)
  | blob (b : List Nat)
  | null
deriving DecidableEq, Repr

/-- Engine model of sqlite3_column_type: the storage class of a value.
Only the NULL discrimination is relied on by the wrapper (column_dispatcher
checks it for std::optional outputs). -/
def sqlite3_column_type : SQLValue → Int
  | .integer _ => SQLITE_INTEGER
  | .text _ => SQLITE_TEXT
  | .blob _ => SQLITE_BLOB
  | .null => SQLITE_NULL

/-- Engine model of sqlite3_column_int64.  The integer case is exact; the
engine's text/blob-to-integer coercions are not modelled (no claim exercises
them) and NULL reads as 0, as in SQLite. -/
def sqlite3_column_int64 : SQLValue → Int
  | .integer n => n
  | .text _ => 0
  | .blob _ => 0
  | .null => 0

/-- Engine model of sqlite3_column_text together with sqlite3_column_bytes:
the UTF-8 text of the column.  The text case is exact; integers render via
their decimal form as in SQLite, and the remaining coercions are not
modelled (no claim exercises them). -/
def sqlite3_column_text : SQLValue → String
  | .integer n => toString n
  | .text s => s
  | .blob _ => ""
  | .null => ""

/-- The shape of one bind argument of a Database::query call, covering the
closed set of cases of the bind_dispatcher in Database::query:
integral types, const char* / char*, std::string, blob, blob_view,
std::nullopt_t, and std::optional of any of these (present or absent). -/
inductive BindArg : Type
  | intArg (n : Int)
  | charPtr (s : String)
  | stdString (s : String)
  | blobArg (b : List Nat)
  | blobViewArg (b : List Nat)
  | nulloptArg
  | optPresent (a : BindArg)
  | optAbsent
deriving DecidableEq, Repr

/-- One call into the SQLite bind API, recording which bind function the
dispatcher chose, the 1-based parameter index, and the value. -/
inductive BindAction : Type
  | bindInt64 (idx : Nat) (v : Int)
  | bindText (idx : Nat) (s : String)
  | bindBlob (idx : Nat) (b : List Nat)
  | bindNull (idx : Nat)
deriving DecidableEq, Repr

/-- The bind_dispatcher lambda of Database::query: given the current
parameter index and one argument, emit the bind calls for that argument and
return the next index.  Mirrors the if-constexpr chain: integral types go
through sqlite3_bind_int64; char pointers and std::string through
sqlite3_bind_text; blob and blob_view through sqlite3_bind_blob;
std::nullopt_t through sqlite3_bind_null; a present std::optional recurses
on the wrapped value and returns before the index increment (the recursive
call performs the single increment); an absent std::optional binds null. -/
def bind_dispatcher (idx : Nat) : BindArg → List BindAction × Nat
  | .intArg n => ([.bindInt64 idx n], idx + 1)
  | .charPtr s => ([.bindText idx s], idx + 1)
  | .stdString s => ([.bindText idx s], idx + 1)
  | .blobArg b => ([.bindBlob idx b], idx + 1)
  | .blobViewArg b => ([.bindBlob idx b], idx + 1)
  | .nulloptArg => ([.bindNull idx], idx + 1)
  | .optPresent a => bind_dispatcher idx a
  | .optAbsent => ([.bindNull idx], idx + 1)

/-- The fold expression of Database::query: apply bind_dispatcher to each
argument in left-to-right order, threading the shared index, which starts
at 1. -/
def bindAll : Nat → List BindArg → List BindAction
  | _, [] => []
  | idx, a :: rest =>
    let r := bind_dispatcher idx a
    r.1 ++ bindAll r.2 rest

/-- The type of one caller-supplied output reference of a QueryResult
invocation, covering the cases of its column_dispatcher: integral types,
std::string, std::string_view, std::nullopt_t, and std::optional of these. -/
inductive OutTy : Type
  | intTy
  | strTy
  | strViewTy
  | nulloptTy
  | optTy (t : OutTy)
deriving DecidableEq, Repr

/-- The value held by one caller-supplied output reference. -/
inductive OutVal : Type
  | intVal (n : Int)
  | strVal (s : String)
  | nulloptVal
  | optNone
  | optSome (v : OutVal)
deriving DecidableEq, Repr

/-- The column_dispatcher lambda of QueryResult::operator(): given the
current row, the current 0-based column index, and the type of one output
reference, produce the extracted value and the next index.  Mirrors the
if-constexpr chain: integral outputs read sqlite3_column_int64; string and
string_view outputs read sqlite3_column_text / sqlite3_column_bytes;
std::nullopt_t outputs are skipped but still advance the index; for a
std::optional output the column's type is checked against SQLITE_NULL —
NULL resets the optional (then the index advances), otherwise the
dispatcher recurses into a value of the wrapped type, wraps it, and returns
before the outer increment (the recursion performed the single increment). -/
def column_dispatcher (row : List SQLValue) (idx : Nat) : OutTy → OutVal × Nat
  | .intTy => (.intVal (sqlite3_column_int64 (row.getD idx .null)), idx + 1)
  | .strTy => (.strVal (sqlite3_column_text (row.getD idx .null)), idx + 1)
  | .strViewTy => (.strVal (sqlite3_column_text (row.getD idx .null)), idx + 1)
  | .nulloptTy => (.nulloptVal, idx + 1)
  | .optTy t =>
    if sqlite3_column_type (row.getD idx .null) = SQLITE_NULL then
      (.optNone, idx + 1)
    else
      let r := column_dispatcher row idx t
      (.optSome r.1, r.2)

/-- The fold expression of QueryResult::operator(): apply column_dispatcher
to each output reference in left-to-right order, threading the shared
0-based column index.  Each slot pairs the reference's type with its value
before the call; the returned list holds the values after the call. -/
def extractAll (row : List SQLValue) : Nat → List (OutTy × OutVal) → List (OutTy × OutVal)
  | _, [] => []
  | idx, (t, _) :: rest =>
    let r := column_dispatcher row idx t
    (t, r.1) :: extractAll row r.2 rest

/-- Engine model of one prepared statement handle (sqlite3_stmt).
id is the native handle identity; rows is the list of result rows this
statement's execution produces; cols is sqlite3_column_count; pos counts
the rows already stepped past; termCode is the code sqlite3_step reports
once no rows remain (SQLITE_DONE on success, an error code otherwise);
stepCount is a ghost counter of sqlite3_step calls, and bindings records
the parameter bindings currently in effect. -/
structure StmtHandle : Type where
  id : Nat
  rows : List (List SQLValue)
  cols : Nat
  pos : Nat
  termCode : Int
  stepCount : Nat
  bindings : List BindAction
deriving DecidableEq, Repr

/-- Engine model of sqlite3_step: while rows remain, report SQLITE_ROW and
move to the next row; once exhausted, report the statement's terminal code
and leave the position unchanged.  The ghost step counter always
increments. -/
def sqlite3_step (s : StmtHandle) : StmtHandle × Int :=
  if s.pos < s.rows.length then
    ({ s with pos := s.pos + 1, stepCount := s.stepCount + 1 }, SQLITE_ROW)
  else
    ({ s with stepCount := s.stepCount + 1 }, s.termCode)

/-- Engine model of sqlite3_clear_bindings: drop all parameter bindings. -/
def sqlite3_clear_bindings (s : StmtHandle) : StmtHandle :=
  { s with bindings := [] }

/-- Engine model of sqlite3_reset: return the statement to its
pre-execution state (the ghost step counter is cumulative and stays). -/
def sqlite3_reset (s : StmtHandle) : StmtHandle :=
  { s with pos := 0 }

/-- The row sqlite3_column_* calls read from after a step reported
SQLITE_ROW: the row the step just moved past. -/
def currentRow (s : StmtHandle) : List SQLValue :=
  s.rows.getD (s.pos - 1) []

/-- One observable call on a statement handle made by the wrapper's
cleanup paths (QueryResult's destructor, PreparedStmtCache's destructor). -/
inductive StmtAction : Type
  | clearBindings (stmt : Nat)
  | reset (stmt : Nat)
  | checkin (cache : Nat) (stmt : Nat)
  | finalize (stmt : Nat)
deriving DecidableEq, Repr

/-- The state of QueryResult: the owned statement handle (none models a
null sqlite3_stmt pointer), the stored check-in callback put_cb (identified
by the cache it returns statements to), the saved result code ret of the
most recent sqlite3_step, and the first_invocation flag. -/
structure QueryResult : Type where
  stmt : Option StmtHandle
  put_cb : Nat
  ret : Int
  first_invocation : Bool
deriving DecidableEq, Repr

namespace QueryResult

/-- The private QueryResult constructor used by Database::query: store the
statement and the check-in callback, then immediately execute one
sqlite3_step and save its result code.  first_invocation starts true. -/
def construct (s : StmtHandle) (cb : Nat) : QueryResult :=
  let r := sqlite3_step s
  { stmt := some r.1, put_cb := cb, ret := r.2, first_invocation := true }

/-- The default QueryResult constructor: a null statement handle.  The
fields ret and put_cb are left uninitialized by the C++ code, so they are
parameters here; first_invocation has an in-class initializer of true. -/
def defaultCtor (junk_ret : Int) (junk_cb : Nat) : QueryResult :=
  { stmt := none, put_cb := junk_cb, ret := junk_ret, first_invocation := true }

/-- QueryResult::resultCode: the SQLite result code of the most recent
sqlite3_step on the prepared statement. -/
def resultCode (q : QueryResult) : Int :=
  q.ret

/-- QueryResult::operator(): one advance of the cursor.  Returns the thrown
error code if any, the output references after the call, whether a row was
delivered, and the cursor state after the call.  Mirrors the source order:
first the column-count guard (throwing error with code SQLITE_ERROR — the
kind the specification names ColumnMismatch — before anything else), then a
step unless this is still the first invocation, then the no-row check, then
the extraction fold, and finally first_invocation is lowered.  A cursor
whose statement is null is never invoked by the wrapper (that would
dereference a null pointer); the model returns its arguments unchanged. -/
def advance (q : QueryResult) (outs : List (OutTy × OutVal)) :
    Option Int × List (OutTy × OutVal) × Bool × QueryResult :=
  match q.stmt with
  | none => (none, outs, false, q)
  | some s =>
    if outs.length > s.cols then
      (some SQLITE_ERROR, outs, false, q)
    else
      let r := if q.first_invocation then (s, q.ret) else sqlite3_step s
      if r.2 ≠ SQLITE_ROW then
        (none, outs, false, { q with stmt := some r.1, ret := r.2 })
      else
        (none, extractAll (currentRow r.1) 0 outs, true,
          { q with stmt := some r.1, ret := r.2, first_invocation := false })

/-- QueryResult's destructor: on a null statement do nothing; otherwise
clear the bindings, reset the statement, and hand it to the stored put_cb
(check-in), never finalizing it.  Returns the emitted calls and the handle
state passed to the check-in. -/
def destruct (q : QueryResult) : List StmtAction × Option StmtHandle :=
  match q.stmt with
  | none => ([], none)
  | some s =>
    ([.clearBindings s.id, .reset s.id, .checkin q.put_cb s.id],
      some (sqlite3_reset (sqlite3_clear_bindings s)))

end QueryResult

/-- QueryResult's move assignment, modelled on a store of cursor objects
addressed by Nat (C++ object identity).  When the two addresses coincide
the self-assignment guard makes the call a no-op; otherwise the destination
takes over stmt, ret, first_invocation and put_cb from the source, and the
source's statement pointer is nulled. -/
def opMoveAssign (store : Nat → QueryResult) (dst src : Nat) : Nat → QueryResult :=
  if dst = src then store
  else fun a =>
    if a = dst then
      { stmt := (store src).stmt, put_cb := (store src).put_cb,
        ret := (store src).ret, first_invocation := (store src).first_invocation }
    else if a = src then
      { store src with stmt := none }
    else store a

/-- The state of one PreparedStmtCache: the distinguished single slot
first_free_stmt, the overflow vector other_free_stmts (statement ids, in
push order), plus model bookkeeping: cacheId identifies this thread-local
cache instance, nextStmtId supplies fresh handle ids from
sqlite3_prepare_v3, and prepareCount is a ghost counter of prepare calls. -/
structure PreparedStmtCache : Type where
  cacheId : Nat
  first_free_stmt : Option Nat
  other_free_stmts : List Nat
  nextStmtId : Nat
  prepareCount : Nat
deriving DecidableEq, Repr

namespace PreparedStmtCache

/-- A freshly constructed cache: both the single slot and the overflow
vector empty, no prepare performed yet. -/
def initCache (cid : Nat) : PreparedStmtCache :=
  { cacheId := cid, first_free_stmt := none, other_free_stmts := [],
    nextStmtId := 0, prepareCount := 0 }

/-- PreparedStmtCache::internal_get: if the single slot holds a statement,
swap it out and return it; otherwise if the overflow vector is nonempty,
pop and return its back element; otherwise call sqlite3_prepare_v3 to make
a new statement, throwing error with the engine's return code if it is not
SQLITE_OK.  The engine's prepare outcome is the parameter prepRet. -/
def internal_get (prepRet : Int) (c : PreparedStmtCache) :
    Except Int (Nat × PreparedStmtCache) :=
  match c.first_free_stmt with
  | some stmt => .ok (stmt, { c with first_free_stmt := none })
  | none =>
    match c.other_free_stmts.getLast? with
    | some stmt => .ok (stmt, { c with other_free_stmts := c.other_free_stmts.dropLast })
    | none =>
      if prepRet ≠ SQLITE_OK then
        .error prepRet
      else
        .ok (c.nextStmtId,
          { c with nextStmtId := c.nextStmtId + 1, prepareCount := c.prepareCount + 1 })

/-- PreparedStmtCache::internal_put: store the returned statement in the
single slot if it is empty, else push it onto the overflow vector. -/
def internal_put (c : PreparedStmtCache) (stmt : Nat) : PreparedStmtCache :=
  match c.first_free_stmt with
  | none => { c with first_free_stmt := some stmt }
  | some _ => { c with other_free_stmts := c.other_free_stmts ++ [stmt] }

/-- PreparedStmtCache's destructor: finalize the statement in the single
slot (sqlite3_finalize of a null pointer is a harmless no-op, modelled by
emitting nothing) and every statement in the overflow vector. -/
def destructCache (c : PreparedStmtCache) : List StmtAction :=
  (match c.first_free_stmt with
    | none => []
    | some stmt => [.finalize stmt]) ++ c.other_free_stmts.map .finalize

end PreparedStmtCache

/-- One observable engine call of a Database::query invocation after the
statement has been checked out: the parameter binds, then the single
construction-time step. -/
inductive EngineEvent : Type
  | bindEv (a : BindAction)
  | stepEv
deriving DecidableEq, Repr

/-- The state of Database::Connection: the native database handle, with
the busy-retry handler installed after a successful open. -/
structure Connection : Type where
  db_handle : Nat
  busyHandlerInstalled : Bool
deriving DecidableEq, Repr

/-- Connection's constructor: perform the one-time global configuration
(not modelled further), call sqlite3_open exactly once — throwing error
with the engine's return code if it is not SQLITE_OK, with no retry — then
install the busy handler and run the post-connection hook. -/
def Connection.construct (openRet : Int) (handle : Nat) : Except Int Connection :=
  if openRet ≠ SQLITE_OK then
    .error openRet
  else
    .ok { db_handle := handle, busyHandlerInstalled := true }

/-- Database::query for the no-user-converter case: check a statement out
of the cache (possibly preparing a new one; a prepare failure propagates as
a thrown error), bind all arguments left-to-right starting at parameter
index 1, and construct the QueryResult, whose constructor performs the
first step.  The engine-determined execution of this statement (its result
rows, column count and terminal step code) enters as parameters.  Returns
the cursor, the cache after checkout, and the engine events after
checkout. -/
def Database.query (c : PreparedStmtCache) (prepRet : Int)
    (rows : List (List SQLValue)) (cols : Nat) (termCode : Int)
    (args : List BindArg) :
    Except Int (QueryResult × PreparedStmtCache × List EngineEvent) :=
  match PreparedStmtCache.internal_get prepRet c with
  | .error e => .error e
  | .ok r =>
    let binds := bindAll 1 args
    let s : StmtHandle :=
      { id := r.1, rows := rows, cols := cols, pos := 0,
        termCode := termCode, stepCount := 0, bindings := binds }
    .ok (QueryResult.construct s c.cacheId, r.2,
      binds.map EngineEvent.bindEv ++ [EngineEvent.stepEv])

/-- One checkout / check-in cycle on a cache, as performed by a sequential
query invocation whose cursor is destroyed before the next invocation: the
statement obtained by internal_get is returned by internal_put.  The
prepare, when one happens, succeeds. -/
def queryCycle (c : PreparedStmtCache) : PreparedStmtCache :=
  match PreparedStmtCache.internal_get SQLITE_OK c with
  | .ok r => PreparedStmtCache.internal_put r.2 r.1
  | .error _ => c

/-- The user-converter universe: one bind argument of a query call whose
argument list may mention a user type U that has a registered
user_serialize_fn.  native covers every type without a converter; user is
a U itself; optUser is std::optional of U (whose converter specialization
exists exactly because U's does). -/
inductive QArg (U : Type) : Type
  | native (b : BindArg)
  | user (u : U)
  | optUser (o : Option U)
deriving DecidableEq, Repr

/-- Whether user_serialize_fn of the argument's type is non-null:
it is for U and for std::optional of U, and null for every native shape. -/
def hasUserSerialize {U : Type} : QArg U → Bool
  | .native _ => false
  | .user _ => true
  | .optUser _ => true

/-- The user_serialize_fn specialization for std::optional of U, defined
when U has a converter f: a present value maps to a present converted
value, an absent one to std::nullopt. -/
def user_serialize_fn_opt {U : Type} (f : U → BindArg) : Option U → BindArg
  | some a => .optPresent (f a)
  | none => .optAbsent

/-- The maybe_serialize lambda of Database::query: apply the registered
converter when the argument's type has one, otherwise return the argument
itself. -/
def maybe_serialize {U : Type} (f : U → BindArg) : QArg U → BindArg
  | .native b => b
  | .user u => f u
  | .optUser o => user_serialize_fn_opt f o

/-- The converter pre-pass of Database::query: when any argument's type has
a registered user_serialize_fn, maybe_serialize is mapped over the whole
argument list and query recurses on the result; the recursion then binds
the converted list.  When no argument has one, the list is bound directly —
which coincides with binding the maybe_serialize image, since
maybe_serialize is the identity on native arguments. -/
def queryUserBinds {U : Type} (f : U → BindArg) (args : List (QArg U)) : List BindAction :=
  bindAll 1 (args.map (maybe_serialize f))

/-- Ghost observation: the cumulative number of sqlite3_step calls made on
the statement a cursor holds (0 for a null handle). -/
def QueryResult.stepsTaken (q : QueryResult) : Nat :=
  match q.stmt with
  | some s => s.stepCount
  | none => 0

/-- The column count of the statement a cursor holds (0 for a null
handle). -/
def QueryResult.colsOf (q : QueryResult) : Nat :=
  match q.stmt with
  | some s => s.cols
  | none => 0

/-- Several advances in sequence: run QueryResult::operator() once per
output list, recording for each advance the thrown error (if any), whether
a row was delivered, and the cursor's result code after the advance. -/
def advanceMany (q : QueryResult) : List (List (OutTy × OutVal)) →
    List (Option Int × Bool × Int) × QueryResult
  | [] => ([], q)
  | outs :: rest =>
    let r := q.advance outs
    let rr := advanceMany r.2.2.2 rest
    ((r.1, r.2.2.1, r.2.2.2.ret) :: rr.1, rr.2)

/-- Well-formedness of a live cursor with respect to the engine model: the
statement's terminal step code is not SQLITE_ROW, and whenever the saved
result code is not SQLITE_ROW the statement is past its last row and the
saved code is the terminal code.  Every cursor produced by
QueryResult.construct on a statement with a non-ROW terminal code
satisfies this, and every advance preserves it. -/
def cursorWF (q : QueryResult) : Bool :=
  match q.stmt with
  | none => false
  | some s =>
    (s.termCode != SQLITE_ROW) &&
      ((q.ret == SQLITE_ROW) ||
        (decide (s.rows.length ≤ s.pos) && (q.ret == s.termCode)))

/-- A concrete one-row, one-column statement handle, used by witnesses. -/
def demoStmt : StmtHandle :=
  { id := 0, rows := [[.integer 7]], cols := 1, pos := 0,
    termCode := SQLITE_DONE, stepCount := 0, bindings := [] }

/-- A concrete zero-row statement handle, used by witnesses. -/
def emptyStmt : StmtHandle :=
  { id := 5, rows := [], cols := 2, pos := 0,
    termCode := SQLITE_DONE, stepCount := 0, bindings := [] }

/-- A second concrete statement handle, distinct from demoStmt, used to
exhibit move assignment onto a cursor that still holds a statement. -/
def demoStmt2 : StmtHandle :=
  { id := 9, rows := [], cols := 0, pos := 0,
    termCode := SQLITE_DONE, stepCount := 0, bindings := [] }

/-- A concrete store of two live cursors: object 0 holds demoStmt (id 0)
and object 1 holds demoStmt2 (id 9), both wired to cache 4.  Mirrors the
repository's own test, which move-assigns a fresh query result onto a
fetch_row variable that still holds a statement. -/
def movedOntoStore : Nat → QueryResult := fun a =>
  if a = 0 then ⟨some demoStmt, 4, SQLITE_DONE, true⟩
  else ⟨some demoStmt2, 4, SQLITE_DONE, true⟩

section HelperLemmas

/-- Each argument shape advances the shared parameter index by exactly
one, including a present optional (whose recursion performs the single
increment). -/
theorem bind_dispatcher_snd (a : BindArg) : ∀ idx, (bind_dispatcher idx a).2 = idx + 1 := by
  induction a <;> intro idx <;> simp [bind_dispatcher, *]

theorem bindAll_cons (idx : Nat) (a : BindArg) (rest : List BindArg) :
    bindAll idx (a :: rest) = (bind_dispatcher idx a).1 ++ bindAll (idx + 1) rest := by
  show (bind_dispatcher idx a).1 ++ bindAll (bind_dispatcher idx a).2 rest = _
  rw [bind_dispatcher_snd]

theorem bindAll_append (args₁ : List BindArg) :
    ∀ idx args₂, bindAll idx (args₁ ++ args₂) =
      bindAll idx args₁ ++ bindAll (idx + args₁.length) args₂ := by
  induction args₁ with
  | nil => intro idx args₂; simp [bindAll]
  | cons a rest ih =>
    intro idx args₂
    rw [List.cons_append, bindAll_cons, bindAll_cons, ih (idx + 1) args₂,
      List.append_assoc]
    have h : idx + 1 + rest.length = idx + (a :: rest).length := by
      simp only [List.length_cons]
      omega
    rw [h]

end HelperLemmas

/-- C6: for every query invocation, each bind argument is bound in
left-to-right order to the next 1-based parameter index, each top-level
argument consuming exactly one index; integral arguments are bound via
sqlite3_bind_int64, C strings and std::string via sqlite3_bind_text as
text, blob and blob_view via sqlite3_bind_blob as an opaque byte sequence,
and std::nullopt via sqlite3_bind_null without further recursion; and in
Database::query all bind events precede the single execution step. -/
theorem C6_bind_dispatcher_mapping :
    (∀ (idx : Nat) (a : BindArg), (bind_dispatcher idx a).2 = idx + 1) ∧
    (∀ (idx : Nat) (n : Int),
      bind_dispatcher idx (.intArg n) = ([.bindInt64 idx n], idx + 1)) ∧
    (∀ (idx : Nat) (s : String),
      bind_dispatcher idx (.charPtr s) = ([.bindText idx s], idx + 1)) ∧
    (∀ (idx : Nat) (s : String),
      bind_dispatcher idx (.stdString s) = ([.bindText idx s], idx + 1)) ∧
    (∀ (idx : Nat) (b : List Nat),
      bind_dispatcher idx (.blobArg b) = ([.bindBlob idx b], idx + 1)) ∧
    (∀ (idx : Nat) (b : List Nat),
      bind_dispatcher idx (.blobViewArg b) = ([.bindBlob idx b], idx + 1)) ∧
    (∀ idx : Nat, bind_dispatcher idx .nulloptArg = ([.bindNull idx], idx + 1)) ∧
    (∀ (args₁ : List BindArg) (a : BindArg) (args₂ : List BindArg),
      bindAll 1 (args₁ ++ a :: args₂) =
        bindAll 1 args₁ ++ (bind_dispatcher (args₁.length + 1) a).1 ++
          bindAll (args₁.length + 2) args₂) ∧
    (∀ (c : PreparedStmtCache) (p : Int) (rows : List (List SQLValue))
      (cols : Nat) (tc : Int) (args : List BindArg) (q : QueryResult)
      (c' : PreparedStmtCache) (evs : List EngineEvent),
      Database.query c p rows cols tc args = .ok (q, c', evs) →
      evs = (bindAll 1 args).map EngineEvent.bindEv ++ [EngineEvent.stepEv]) := by
  refine ⟨fun idx a => bind_dispatcher_snd a idx, fun _ _ => rfl, fun _ _ => rfl,
    fun _ _ => rfl, fun _ _ => rfl, fun _ _ => rfl, fun _ => rfl, ?_, ?_⟩
  · intro args₁ a args₂
    have h2 : 1 + args₁.length + 1 = args₁.length + 2 := by omega
    have h1 : 1 + args₁.length = args₁.length + 1 := by omega
    rw [bindAll_append, bindAll_cons, List.append_assoc, h2, h1]
  · intro c p rows cols tc args q c' evs h
    unfold Database.query at h
    cases hg : PreparedStmtCache.internal_get p c with
    | error e => rw [hg] at h; exact absurd h (by simp)
    | ok r =>
      rw [hg] at h
      simp only [Except.ok.injEq, Prod.mk.injEq] at h
      exact h.2.2.symm

/-- C6 witness: the mapping evaluated on a concrete invocation. -/
theorem C6_witness :
    bindAll 1 [.intArg 4, .stdString "a", .blobArg [1], .nulloptArg] =
      [.bindInt64 1 4, .bindText 2 "a", .bindBlob 3 [1], .bindNull 4] ∧
    Database.query (.initCache 0) SQLITE_OK [] 0 SQLITE_DONE [.intArg 4] =
      .ok (QueryResult.construct
            { id := 0, rows := [], cols := 0, pos := 0, termCode := SQLITE_DONE,
              stepCount := 0, bindings := [.bindInt64 1 4] } 0,
        { cacheId := 0, first_free_stmt := none, other_free_stmts := [],
          nextStmtId := 1, prepareCount := 1 },
        [.bindEv (.bindInt64 1 4), .stepEv]) := by
  constructor
  · have h := C6_bind_dispatcher_mapping.2.2.2.2.2.2.2.1 [BindArg.intArg 4]
      (BindArg.stdString "a") [BindArg.blobArg [1], BindArg.nulloptArg]
    exact h.trans (by decide)
  · rfl

/-- C7: binding an absent optional binds SQL NULL at its parameter index;
binding a present optional binds the unwrapped value exactly as if passed
directly, the shared index advancing once, not twice; on extraction, a SQL
NULL column sets an optional-wrapped output to empty, and a non-NULL
column sets it to a present value equal to a direct non-optional
extraction of the same column, the index advancing once either way. -/
theorem C7_optional_composition :
    (∀ idx : Nat, bind_dispatcher idx .optAbsent = ([.bindNull idx], idx + 1)) ∧
    (∀ (idx : Nat) (a : BindArg),
      bind_dispatcher idx (.optPresent a) = bind_dispatcher idx a) ∧
    (∀ (idx : Nat) (a : BindArg), (bind_dispatcher idx (.optPresent a)).2 = idx + 1) ∧
    (∀ (row : List SQLValue) (idx : Nat) (t : OutTy),
      sqlite3_column_type (row.getD idx .null) = SQLITE_NULL →
      column_dispatcher row idx (.optTy t) = (.optNone, idx + 1)) ∧
    (∀ (row : List SQLValue) (idx : Nat) (t : OutTy),
      sqlite3_column_type (row.getD idx .null) ≠ SQLITE_NULL →
      column_dispatcher row idx (.optTy t) =
        (.optSome (column_dispatcher row idx t).1, (column_dispatcher row idx t).2)) := by
  refine ⟨fun _ => rfl, fun _ _ => rfl,
    fun idx a => bind_dispatcher_snd (.optPresent a) idx, ?_, ?_⟩
  · intro row idx t h
    simp only [column_dispatcher]
    rw [if_pos h]
  · intro row idx t h
    simp only [column_dispatcher]
    rw [if_neg h]

/-- C7 witness: optional composition evaluated on concrete columns. -/
theorem C7_witness :
    column_dispatcher [SQLValue.null] 0 (.optTy .intTy) = (.optNone, 1) ∧
    column_dispatcher [SQLValue.integer 5] 0 (.optTy .intTy) =
      (.optSome (.intVal 5), 1) ∧
    column_dispatcher [SQLValue.integer 5] 0 .intTy = (.intVal 5, 1) := by
  refine ⟨C7_optional_composition.2.2.2.1 [SQLValue.null] 0 .intTy (by decide),
    (C7_optional_composition.2.2.2.2 [SQLValue.integer 5] 0 .intTy (by decide)).trans
      (by decide), by decide⟩

/-- C8: if any argument's type has a registered user serialize converter,
the converter is applied to that argument and the query re-dispatched with
the converted value in the same position, other arguments unchanged; this
composes through std::optional: an optional wrapping a user type whose
inner type has a converter serializes to an optional of the converted
type, absent mapping to absent; arguments without a converter pass through
untouched. -/
theorem C8_serialize_converter :
    (∀ (U : Type) (f : U → BindArg) (b : BindArg), maybe_serialize f (.native b) = b) ∧
    (∀ (U : Type) (f : U → BindArg) (args₁ : List (QArg U)) (u : U)
      (args₂ : List (QArg U)),
      queryUserBinds f (args₁ ++ .user u :: args₂) =
        queryUserBinds f (args₁ ++ .native (f u) :: args₂)) ∧
    (∀ (U : Type) (f : U → BindArg) (u : U),
      maybe_serialize f (.optUser (some u)) = .optPresent (f u)) ∧
    (∀ (U : Type) (f : U → BindArg),
      maybe_serialize f (.optUser (none : Option U)) = .optAbsent) ∧
    (∀ (U : Type) (f : U → BindArg) (args₁ : List (QArg U)) (o : Option U)
      (args₂ : List (QArg U)),
      queryUserBinds f (args₁ ++ .optUser o :: args₂) =
        queryUserBinds f (args₁ ++ .native (user_serialize_fn_opt f o) :: args₂)) ∧
    (∀ (U : Type) (f : U → BindArg) (bs : List BindArg),
      queryUserBinds f (bs.map (.native : BindArg → QArg U)) = bindAll 1 bs) := by
  refine ⟨fun _ _ _ => rfl, ?_, fun _ _ _ => rfl, fun _ _ => rfl, ?_, ?_⟩
  · intro U f args₁ u args₂
    simp [queryUserBinds, maybe_serialize]
  · intro U f args₁ o args₂
    simp [queryUserBinds, maybe_serialize]
  · intro U f bs
    unfold queryUserBinds
    rw [List.map_map]
    have h : (maybe_serialize f ∘ QArg.native) = id := funext fun b => rfl
    rw [h, List.map_id]

/-- C1: checkout returns the statement in the distinguished single slot if
occupied, else removes and returns the back of the overflow vector, and
only when both are empty prepares a new statement; checkin stores into the
single slot if empty, else appends to the overflow vector; consequently N
sequential checkout/check-in cycles on a fresh cache prepare exactly one
statement, which is back in the cache (not dropped) after every cycle. -/
theorem C1_cache_reuse :
    (∀ (p : Int) (c : PreparedStmtCache) (t : Nat),
      c.first_free_stmt = some t →
      PreparedStmtCache.internal_get p c = .ok (t, { c with first_free_stmt := none })) ∧
    (∀ (p : Int) (c : PreparedStmtCache) (l : List Nat) (t : Nat),
      c.first_free_stmt = none → c.other_free_stmts = l ++ [t] →
      PreparedStmtCache.internal_get p c =
        .ok (t, { c with other_free_stmts := l })) ∧
    (∀ c : PreparedStmtCache,
      c.first_free_stmt = none → c.other_free_stmts = [] →
      PreparedStmtCache.internal_get SQLITE_OK c =
        .ok (c.nextStmtId, { c with nextStmtId := c.nextStmtId + 1, prepareCount := c.prepareCount + 1 })) ∧
    (∀ (c : PreparedStmtCache) (t : Nat), c.first_free_stmt = none →
      PreparedStmtCache.internal_put c t = { c with first_free_stmt := some t }) ∧
    (∀ (c : PreparedStmtCache) (t u : Nat), c.first_free_stmt = some u →
      PreparedStmtCache.internal_put c t =
        { c with other_free_stmts := c.other_free_stmts ++ [t] }) ∧
    (∀ (cid n : Nat), 1 ≤ n →
      queryCycle^[n] (PreparedStmtCache.initCache cid) =
        { cacheId := cid, first_free_stmt := some 0, other_free_stmts := [],
          nextStmtId := 1, prepareCount := 1 }) := by
  refine ⟨?_, ?_, ?_, ?_, ?_, ?_⟩
  · intro p c t h
    simp [PreparedStmtCache.internal_get, h]
  · intro p c l t h1 h2
    simp [PreparedStmtCache.internal_get, h1, h2, List.getLast?_concat,
      List.dropLast_concat]
  · intro c h1 h2
    simp [PreparedStmtCache.internal_get, h1, h2]
  · intro c t h
    simp [PreparedStmtCache.internal_put, h]
  · intro c t u h
    simp [PreparedStmtCache.internal_put, h]
  · intro cid n hn
    induction n with
    | zero => exact absurd hn (by omega)
    | succ m ih =>
      rw [Function.iterate_succ_apply']
      rcases Nat.eq_zero_or_pos m with hm | hm
      · subst hm
        rfl
      · rw [ih hm]
        rfl

/-- C1 witness: five sequential cycles on a fresh cache prepare exactly one
statement, and a checkout from an occupied single slot reuses it. -/
theorem C1_witness :
    queryCycle^[5] (PreparedStmtCache.initCache 3) =
      { cacheId := 3, first_free_stmt := some 0, other_free_stmts := [],
        nextStmtId := 1, prepareCount := 1 } ∧
    PreparedStmtCache.internal_get SQLITE_OK
        { cacheId := 3, first_free_stmt := some 0, other_free_stmts := [],
          nextStmtId := 1, prepareCount := 1 } =
      .ok (0, { cacheId := 3, first_free_stmt := none, other_free_stmts := [],
                nextStmtId := 1, prepareCount := 1 }) :=
  ⟨C1_cache_reuse.2.2.2.2.2 3 5 (by decide),
    C1_cache_reuse.1 SQLITE_OK _ 0 rfl⟩

/-- C4: whenever the number of caller-supplied output references exceeds
the statement's column count, the advance throws the error code the
specification calls ColumnMismatch (SQLITE_ERROR), before stepping and
before mutating any output: the outputs and the cursor (statement
included) are returned unchanged. -/
theorem C4_column_count_guard (q : QueryResult) (s : StmtHandle)
    (outs : List (OutTy × OutVal)) (hs : q.stmt = some s)
    (hlen : outs.length > s.cols) :
    q.advance outs = (some SQLITE_ERROR, outs, false, q) := by
  simp [QueryResult.advance, hs, hlen]

/-- C4 witness: requesting two outputs from a one-column statement fails
with the ColumnMismatch code and changes nothing. -/
theorem C4_witness :
    QueryResult.advance
        { stmt := some demoStmt, put_cb := 0, ret := SQLITE_ROW,
          first_invocation := true }
        [(.intTy, .intVal 0), (.strTy, .strVal "")] =
      (some SQLITE_ERROR, [(.intTy, .intVal 0), (.strTy, .strVal "")], false,
        { stmt := some demoStmt, put_cb := 0, ret := SQLITE_ROW,
          first_invocation := true }) :=
  C4_column_count_guard _ demoStmt _ rfl (by decide)

/-- Helper: a prepare failure inside internal_get (both cache compartments
empty) surfaces the engine's return code as a thrown error. -/
theorem internal_get_prepare_error (p : Int) (c : PreparedStmtCache)
    (h1 : c.first_free_stmt = none) (h2 : c.other_free_stmts = [])
    (hp : p ≠ SQLITE_OK) : PreparedStmtCache.internal_get p c = .error p := by
  simp [PreparedStmtCache.internal_get, h1, h2, hp]

/-- C9: every non-success return code from connection open or statement
preparation is surfaced synchronously as the single error kind carrying
the native integer code (and a prepare failure propagates out of query
unchanged); a step-time non-row code is retained on the cursor, queryable
via resultCode, and does not throw — the advance merely reports no row. -/
theorem C9_error_surface :
    (∀ (r : Int) (h : Nat), r ≠ SQLITE_OK → Connection.construct r h = .error r) ∧
    (∀ (p : Int) (c : PreparedStmtCache),
      c.first_free_stmt = none → c.other_free_stmts = [] → p ≠ SQLITE_OK →
      PreparedStmtCache.internal_get p c = .error p) ∧
    (∀ (c : PreparedStmtCache) (p : Int) (rows : List (List SQLValue))
      (cols : Nat) (tc : Int) (args : List BindArg),
      c.first_free_stmt = none → c.other_free_stmts = [] → p ≠ SQLITE_OK →
      Database.query c p rows cols tc args = .error p) ∧
    (∀ (q : QueryResult) (s : StmtHandle) (outs : List (OutTy × OutVal)),
      q.stmt = some s → q.first_invocation = false →
      s.rows.length ≤ s.pos → s.termCode ≠ SQLITE_ROW → outs.length ≤ s.cols →
      (q.advance outs).1 = none ∧ (q.advance outs).2.2.1 = false ∧
        ((q.advance outs).2.2.2).resultCode = s.termCode) := by
  refine ⟨?_, ?_, ?_, ?_⟩
  · intro r h hr
    simp [Connection.construct, hr]
  · exact internal_get_prepare_error
  · intro c p rows cols tc args h1 h2 hp
    unfold Database.query
    rw [internal_get_prepare_error p c h1 h2 hp]
  · intro q s outs hs hfi hpos htc hlen
    have hg : ¬ (outs.length > s.cols) := by omega
    have hstep : sqlite3_step s = ({ s with stepCount := s.stepCount + 1 }, s.termCode) := by
      unfold sqlite3_step
      rw [if_neg (by omega)]
    simp [QueryResult.advance, hs, hfi, hg, hstep, htc, QueryResult.resultCode]

/-- C9 witness: a failed open throws its code; a failed prepare throws its
code and propagates out of query; a step-time SQLITE_BUSY is retained on
the cursor without throwing. -/
theorem C9_witness :
    Connection.construct 14 3 = .error 14 ∧
    PreparedStmtCache.internal_get 1 (PreparedStmtCache.initCache 0) = .error 1 ∧
    Database.query (PreparedStmtCache.initCache 0) 1 [] 0 SQLITE_DONE [] = .error 1 ∧
    ((QueryResult.advance
        { stmt := some { id := 1, rows := [], cols := 0, pos := 0,
                         termCode := SQLITE_BUSY, stepCount := 0, bindings := [] },
          put_cb := 0, ret := SQLITE_BUSY, first_invocation := false } []).1 = none ∧
      (QueryResult.advance
        { stmt := some { id := 1, rows := [], cols := 0, pos := 0,
                         termCode := SQLITE_BUSY, stepCount := 0, bindings := [] },
          put_cb := 0, ret := SQLITE_BUSY, first_invocation := false } []).2.2.1 = false ∧
      ((QueryResult.advance
        { stmt := some { id := 1, rows := [], cols := 0, pos := 0,
                         termCode := SQLITE_BUSY, stepCount := 0, bindings := [] },
          put_cb := 0, ret := SQLITE_BUSY, first_invocation := false } []).2.2.2).resultCode
        = SQLITE_BUSY) :=
  ⟨C9_error_surface.1 14 3 (by decide),
    C9_error_surface.2.1 1 _ rfl rfl (by decide),
    C9_error_surface.2.2.1 _ 1 [] 0 SQLITE_DONE [] rfl rfl (by decide),
    C9_error_surface.2.2.2 _ _ [] rfl rfl (by decide) (by decide) (by decide)⟩

/-- C10: destroying a default-constructed or moved-from cursor performs no
binding-clear, no reset and no check-in (the destructor is guarded on a
null statement handle, and move assignment nulls the source's handle);
self-move-assignment leaves the whole store unchanged. -/
theorem C10_noop_destruction :
    (∀ (r : Int) (cb : Nat),
      QueryResult.destruct (QueryResult.defaultCtor r cb) = ([], none)) ∧
    (∀ (store : Nat → QueryResult) (dst src : Nat), dst ≠ src →
      ((opMoveAssign store dst src) src).stmt = none ∧
      QueryResult.destruct ((opMoveAssign store dst src) src) = ([], none)) ∧
    (∀ (store : Nat → QueryResult) (a : Nat), opMoveAssign store a a = store) := by
  refine ⟨fun r cb => rfl, ?_, ?_⟩
  · intro store dst src hne
    have hsrc : (opMoveAssign store dst src) src = { store src with stmt := none } := by
      simp [opMoveAssign, hne, Ne.symm hne]
    rw [hsrc]
    exact ⟨rfl, rfl⟩
  · intro store a
    unfold opMoveAssign
    rw [if_pos rfl]

/-- C10 witness: after a move between distinct objects the source is inert
under destruction, and a self-move is the identity. -/
theorem C10_witness :
    (((opMoveAssign (fun _ => QueryResult.construct demoStmt 0) 0 1) 1).stmt = none ∧
      QueryResult.destruct ((opMoveAssign (fun _ => QueryResult.construct demoStmt 0) 0 1) 1)
        = ([], none)) ∧
    opMoveAssign (fun _ => QueryResult.construct demoStmt 0) 2 2 =
      (fun _ => QueryResult.construct demoStmt 0) :=
  ⟨C10_noop_destruction.2.1 (fun _ => QueryResult.construct demoStmt 0) 0 1 (by decide),
    C10_noop_destruction.2.2 (fun _ => QueryResult.construct demoStmt 0) 2⟩

section CursorLemmas

/-- Reduction of QueryResult::operator() on a live cursor once the
column-count guard passes. -/
theorem advance_cases (s : StmtHandle) (cb : Nat) (ret : Int) (fi : Bool)
    (outs : List (OutTy × OutVal)) (hg : ¬ (outs.length > s.cols)) :
    QueryResult.advance ⟨some s, cb, ret, fi⟩ outs =
      (let r := if fi then (s, ret) else sqlite3_step s
       if r.2 ≠ SQLITE_ROW then (none, outs, false, ⟨some r.1, cb, r.2, fi⟩)
       else (none, extractAll (currentRow r.1) 0 outs, true,
         ⟨some r.1, cb, r.2, false⟩)) := by
  simp only [QueryResult.advance]
  rw [if_neg hg]

/-- On the first invocation no step happens: the saved result code is
consumed. -/
theorem advance_eq_first (s : StmtHandle) (cb : Nat) (ret : Int)
    (outs : List (OutTy × OutVal)) (hg : ¬ (outs.length > s.cols)) :
    QueryResult.advance ⟨some s, cb, ret, true⟩ outs =
      (if ret ≠ SQLITE_ROW then (none, outs, false, ⟨some s, cb, ret, true⟩)
       else (none, extractAll (currentRow s) 0 outs, true,
         ⟨some s, cb, ret, false⟩)) := by
  rw [advance_cases s cb ret true outs hg]
  rfl

/-- On a later invocation the statement is stepped once. -/
theorem advance_eq_step (s : StmtHandle) (cb : Nat) (ret : Int)
    (outs : List (OutTy × OutVal)) (hg : ¬ (outs.length > s.cols)) :
    QueryResult.advance ⟨some s, cb, ret, false⟩ outs =
      (let r := sqlite3_step s
       if r.2 ≠ SQLITE_ROW then (none, outs, false, ⟨some r.1, cb, r.2, false⟩)
       else (none, extractAll (currentRow r.1) 0 outs, true,
         ⟨some r.1, cb, r.2, false⟩)) := by
  rw [advance_cases s cb ret false outs hg]
  rfl

/-- Stepping an exhausted statement reports the terminal code and moves
nothing but the ghost counter. -/
theorem sqlite3_step_exhausted (s : StmtHandle) (h : s.rows.length ≤ s.pos) :
    sqlite3_step s = ({ s with stepCount := s.stepCount + 1 }, s.termCode) := by
  unfold sqlite3_step
  rw [if_neg (by omega)]

/-- A step changes only the position and the ghost counter. -/
theorem sqlite3_step_preserves (s : StmtHandle) :
    (sqlite3_step s).1.cols = s.cols ∧ (sqlite3_step s).1.termCode = s.termCode ∧
    (sqlite3_step s).1.rows = s.rows ∧ (sqlite3_step s).1.id = s.id ∧
    (sqlite3_step s).1.stepCount = s.stepCount + 1 := by
  unfold sqlite3_step
  split <;> exact ⟨rfl, rfl, rfl, rfl, rfl⟩

end CursorLemmas

/-- C5 counterexample: the claim says every statement checked out by
query() is checked in exactly once, but move assignment (source line 350)
overwrites an engaged destination's statement handle without clearing,
resetting or checking it in.  Concretely: before the move, cursor object 0
holds the statement with id 0; after move-assigning object 1 onto object 0
and destroying both cursors, the emitted actions contain no check-in of
statement 0 into any cache — and no finalize either — so that statement is
checked in zero times, not once.  This is the shape of the repository's
own test, which re-assigns a fresh query result onto a fetch_row variable
that still holds a statement. -/
theorem C5_counterexample :
    (movedOntoStore 0).stmt = some demoStmt ∧ demoStmt.id = 0 ∧
    ((QueryResult.destruct ((opMoveAssign movedOntoStore 0 1) 0)).1 ++
      (QueryResult.destruct ((opMoveAssign movedOntoStore 0 1) 1)).1).count
        (.checkin 4 0) = 0 ∧
    StmtAction.finalize 0 ∉
      ((QueryResult.destruct ((opMoveAssign movedOntoStore 0 1) 0)).1 ++
        (QueryResult.destruct ((opMoveAssign movedOntoStore 0 1) 1)).1) := by
  decide

/-- C5 amended: a cursor is never copyable and transferable only by move,
which invalidates the source; destruction in any live state clears the
bindings, resets the statement to pre-execution state and checks it in to
the cache recorded in the stored return callback — in this order, never
finalizing, exactly one check-in — so a statement whose owning cursor is
destroyed (directly, or after being moved out of) is checked in exactly
once; however, move-assigning onto a cursor that still holds a statement
drops the destination's statement without any check-in (or finalize).
The cursor type's copy constructor and copy assignment are deleted in the
source (a compile-time fact outside this model); the transfer operations
modelled here are exactly construction, move and destruction. -/
theorem C5_cursor_ownership :
    (∀ (s : StmtHandle) (cb : Nat),
      (QueryResult.construct s cb).stmt = some (sqlite3_step s).1 ∧
      (QueryResult.construct s cb).put_cb = cb) ∧
    (∀ (q : QueryResult) (s : StmtHandle), q.stmt = some s →
      QueryResult.destruct q =
        ([.clearBindings s.id, .reset s.id, .checkin q.put_cb s.id],
          some { s with bindings := [], pos := 0 }) ∧
      (QueryResult.destruct q).1.count (.checkin q.put_cb s.id) = 1 ∧
      (∀ t : Nat, StmtAction.finalize t ∉ (QueryResult.destruct q).1)) ∧
    (∀ (c : PreparedStmtCache) (p : Int) (rows : List (List SQLValue))
      (cols : Nat) (tc : Int) (args : List BindArg) (q : QueryResult)
      (c' : PreparedStmtCache) (evs : List EngineEvent),
      Database.query c p rows cols tc args = .ok (q, c', evs) →
      q.put_cb = c.cacheId) ∧
    (∀ (store : Nat → QueryResult) (dst src : Nat) (s : StmtHandle),
      dst ≠ src → (store src).stmt = some s →
      ((opMoveAssign store dst src) dst).stmt = some s ∧
      ((opMoveAssign store dst src) src).stmt = none ∧
      ((QueryResult.destruct ((opMoveAssign store dst src) src)).1 ++
        (QueryResult.destruct ((opMoveAssign store dst src) dst)).1).count
          (.checkin (store src).put_cb s.id) = 1) ∧
    (∀ (store : Nat → QueryResult) (dst src : Nat) (s ds : StmtHandle) (cb : Nat),
      dst ≠ src → (store src).stmt = some s → (store dst).stmt = some ds →
      ds.id ≠ s.id →
      ((QueryResult.destruct ((opMoveAssign store dst src) src)).1 ++
        (QueryResult.destruct ((opMoveAssign store dst src) dst)).1).count
          (.checkin cb ds.id) = 0) := by
  refine ⟨fun s cb => ⟨rfl, rfl⟩, ?_, ?_, ?_, ?_⟩
  · intro q s hs
    refine ⟨?_, ?_, ?_⟩
    · simp [QueryResult.destruct, hs, sqlite3_reset, sqlite3_clear_bindings]
    · simp [QueryResult.destruct, hs, List.count_cons]
    · intro t
      simp [QueryResult.destruct, hs]
  · intro c p rows cols tc args q c' evs h
    unfold Database.query at h
    cases hg : PreparedStmtCache.internal_get p c with
    | error e => rw [hg] at h; exact absurd h (by simp)
    | ok r =>
      rw [hg] at h
      simp only [Except.ok.injEq, Prod.mk.injEq] at h
      rw [← h.1]
      rfl
  · intro store dst src s hne hsrc
    have hd : (opMoveAssign store dst src) dst =
        { stmt := (store src).stmt, put_cb := (store src).put_cb,
          ret := (store src).ret, first_invocation := (store src).first_invocation } := by
      simp [opMoveAssign, hne]
    have hs' : (opMoveAssign store dst src) src = { store src with stmt := none } := by
      simp [opMoveAssign, hne, Ne.symm hne]
    refine ⟨?_, ?_, ?_⟩
    · rw [hd]
      exact hsrc
    · rw [hs']
    · rw [hd, hs', hsrc]
      simp [QueryResult.destruct, List.count_cons]
  · intro store dst src s ds cb hne hsrc hdst hid
    have hd : (opMoveAssign store dst src) dst =
        { stmt := (store src).stmt, put_cb := (store src).put_cb,
          ret := (store src).ret, first_invocation := (store src).first_invocation } := by
      simp [opMoveAssign, hne]
    have hs' : (opMoveAssign store dst src) src = { store src with stmt := none } := by
      simp [opMoveAssign, hne, Ne.symm hne]
    rw [hd, hs', hsrc]
    simp [QueryResult.destruct, List.count_cons, hid]

/-- C5 witness: destruction of a live cursor clears, resets and checks the
statement in exactly once; across a moved pair the source's statement is
checked in exactly once; and the statement displaced from the destination
of the move is checked in zero times. -/
theorem C5_witness :
    QueryResult.destruct
        { stmt := some demoStmt, put_cb := 4, ret := SQLITE_ROW,
          first_invocation := true } =
      ([.clearBindings 0, .reset 0, .checkin 4 0], some demoStmt) ∧
    ((QueryResult.destruct
        ((opMoveAssign (fun _ => ⟨some demoStmt, 4, SQLITE_ROW, true⟩) 0 1) 1)).1 ++
      (QueryResult.destruct
        ((opMoveAssign (fun _ => ⟨some demoStmt, 4, SQLITE_ROW, true⟩) 0 1) 0)).1).count
        (.checkin 4 0) = 1 ∧
    ((QueryResult.destruct ((opMoveAssign movedOntoStore 0 1) 1)).1 ++
      (QueryResult.destruct ((opMoveAssign movedOntoStore 0 1) 0)).1).count
        (.checkin 4 demoStmt.id) = 0 :=
  ⟨(C5_cursor_ownership.2.1 _ demoStmt rfl).1,
    (C5_cursor_ownership.2.2.2.1 (fun _ => ⟨some demoStmt, 4, SQLITE_ROW, true⟩) 0 1
      demoStmt (by decide) rfl).2.2,
    C5_cursor_ownership.2.2.2.2 movedOntoStore 0 1 demoStmt2 demoStmt 4
      (by decide) rfl rfl (by decide)⟩

/-- C2 counterexample: the claim says no engine step of the prepared
statement occurs before the returned cursor's first advance, but the
QueryResult constructor invoked inside query() calls sqlite3_step
immediately: on a concrete fresh statement the cursor returned by
construction has already performed one step (and not zero) although no
advance has happened. -/
theorem C2_counterexample :
    (QueryResult.construct demoStmt 0).stepsTaken = 1 ∧
    ¬((QueryResult.construct demoStmt 0).stepsTaken = 0) := by decide

/-- C2 amended: for every query invocation, the first engine step of the
prepared statement occurs at cursor construction inside query(), before
the first advance; the first advance performs no step and consumes the
stored result; an advance past the first invocation steps the statement
exactly once; and the first-invocation flag is lowered exactly by an
advance that delivers a row. -/
theorem C2_stepping_schedule :
    (∀ (s : StmtHandle) (cb : Nat),
      (QueryResult.construct s cb).stepsTaken = s.stepCount + 1) ∧
    (∀ (q : QueryResult) (s : StmtHandle) (outs : List (OutTy × OutVal)),
      q.stmt = some s → q.first_invocation = true → outs.length ≤ s.cols →
      ((q.advance outs).2.2.2).stepsTaken = q.stepsTaken) ∧
    (∀ (q : QueryResult) (s : StmtHandle) (outs : List (OutTy × OutVal)),
      q.stmt = some s → q.first_invocation = false → outs.length ≤ s.cols →
      ((q.advance outs).2.2.2).stepsTaken = q.stepsTaken + 1) ∧
    (∀ (q : QueryResult) (outs : List (OutTy × OutVal)),
      ((q.advance outs).2.2.1 = true →
        ((q.advance outs).2.2.2).first_invocation = false) ∧
      ((q.advance outs).2.2.1 = false →
        ((q.advance outs).2.2.2).first_invocation = q.first_invocation)) := by
  refine ⟨?_, ?_, ?_, ?_⟩
  · intro s cb
    show (sqlite3_step s).1.stepCount = s.stepCount + 1
    exact (sqlite3_step_preserves s).2.2.2.2
  · intro q s outs hs hfi hlen
    obtain ⟨qs, qcb, qret, qfi⟩ := q
    replace hs : qs = some s := hs
    subst hs
    replace hfi : qfi = true := hfi
    subst hfi
    have hg : ¬ (outs.length > s.cols) := by omega
    rw [advance_eq_first s qcb qret outs hg]
    by_cases hrow : qret ≠ SQLITE_ROW
    · rw [if_pos hrow]
    · rw [if_neg hrow]
      rfl
  · intro q s outs hs hfi hlen
    obtain ⟨qs, qcb, qret, qfi⟩ := q
    replace hs : qs = some s := hs
    subst hs
    replace hfi : qfi = false := hfi
    subst hfi
    have hg : ¬ (outs.length > s.cols) := by omega
    rw [advance_eq_step s qcb qret outs hg]
    have hsc := (sqlite3_step_preserves s).2.2.2.2
    by_cases hrow : (sqlite3_step s).2 ≠ SQLITE_ROW
    · rw [if_pos hrow]
      exact hsc
    · rw [if_neg hrow]
      exact hsc
  · intro q outs
    obtain ⟨qs, qcb, qret, qfi⟩ := q
    cases qs with
    | none =>
      exact ⟨fun h => absurd h (by simp [QueryResult.advance]),
        fun _ => by simp [QueryResult.advance]⟩
    | some s =>
      by_cases hg : outs.length > s.cols
      · refine ⟨fun h => absurd h ?_, fun _ => ?_⟩
        · simp [QueryResult.advance, hg]
        · simp [QueryResult.advance, hg]
      · cases qfi with
        | false =>
          rw [advance_eq_step s qcb qret outs hg]
          by_cases hrow : (sqlite3_step s).2 ≠ SQLITE_ROW
          · simp [hrow]
          · simp [hrow]
        | true =>
          rw [advance_eq_first s qcb qret outs hg]
          by_cases hrow : qret ≠ SQLITE_ROW
          · simp [hrow]
          · simp [hrow]

/-- C2 witness: on a concrete one-row statement, the first advance adds no
step while a later advance adds exactly one. -/
theorem C2_witness :
    ((QueryResult.advance ⟨some demoStmt, 0, SQLITE_ROW, true⟩ []).2.2.2).stepsTaken = 0 ∧
    ((QueryResult.advance ⟨some demoStmt, 0, SQLITE_ROW, false⟩ []).2.2.2).stepsTaken = 1 :=
  ⟨C2_stepping_schedule.2.1 ⟨some demoStmt, 0, SQLITE_ROW, true⟩ demoStmt []
      rfl rfl (by decide),
    C2_stepping_schedule.2.2.1 ⟨some demoStmt, 0, SQLITE_ROW, false⟩ demoStmt []
      rfl rfl (by decide)⟩

section ExhaustionLemmas

/-- Construction establishes the cursor invariant whenever the statement's
terminal step code is not SQLITE_ROW. -/
theorem cursorWF_construct (s : StmtHandle) (cb : Nat)
    (h : s.termCode ≠ SQLITE_ROW) :
    cursorWF (QueryResult.construct s cb) = true := by
  unfold QueryResult.construct sqlite3_step
  split
  next hlt => simp [cursorWF, h]
  next hge => simp [cursorWF, h, Nat.le_of_not_lt hge]

/-- Advancing an exhausted well-formed cursor delivers no row, throws
nothing, leaves the outputs untouched, retains the result code, and
preserves the invariant, exhaustion and the column count. -/
theorem advance_exhausted (q : QueryResult) (outs : List (OutTy × OutVal))
    (hwf : cursorWF q = true) (hret : q.ret ≠ SQLITE_ROW)
    (hlen : outs.length ≤ q.colsOf) :
    (q.advance outs).1 = none ∧ (q.advance outs).2.1 = outs ∧
    (q.advance outs).2.2.1 = false ∧
    ((q.advance outs).2.2.2).ret = q.ret ∧
    cursorWF ((q.advance outs).2.2.2) = true ∧
    ((q.advance outs).2.2.2).colsOf = q.colsOf := by
  obtain ⟨qs, cb, ret, fi⟩ := q
  cases qs with
  | none => simp [cursorWF] at hwf
  | some s =>
    replace hret : ret ≠ SQLITE_ROW := hret
    replace hlen : outs.length ≤ s.cols := hlen
    have hg : ¬ (outs.length > s.cols) := by omega
    have hwf' := hwf
    simp only [cursorWF, Bool.and_eq_true, bne_iff_ne, ne_eq, Bool.or_eq_true,
      beq_iff_eq, decide_eq_true_eq] at hwf'
    obtain ⟨htc, hdis⟩ := hwf'
    rcases hdis with hrow | ⟨hpos, hrt⟩
    · exact absurd hrow hret
    cases fi with
    | true =>
      rw [advance_eq_first s cb ret outs hg, if_pos hret]
      exact ⟨rfl, rfl, rfl, rfl, hwf, rfl⟩
    | false =>
      rw [advance_eq_step s cb ret outs hg, sqlite3_step_exhausted s hpos]
      have htc' : s.termCode ≠ SQLITE_ROW := htc
      rw [if_pos htc']
      refine ⟨rfl, rfl, rfl, hrt.symm, ?_, rfl⟩
      simp [cursorWF, htc, hpos]

/-- Any guarded advance preserves the cursor invariant and the column
count, and an advance that reports no row leaves the cursor exhausted. -/
theorem advance_preserves_wf (q : QueryResult) (outs : List (OutTy × OutVal))
    (hwf : cursorWF q = true) (hlen : outs.length ≤ q.colsOf) :
    cursorWF ((q.advance outs).2.2.2) = true ∧
    ((q.advance outs).2.2.2).colsOf = q.colsOf ∧
    ((q.advance outs).2.2.1 = false →
      ((q.advance outs).2.2.2).ret ≠ SQLITE_ROW) := by
  obtain ⟨qs, cb, ret, fi⟩ := q
  cases qs with
  | none => simp [cursorWF] at hwf
  | some s =>
    replace hlen : outs.length ≤ s.cols := hlen
    have hg : ¬ (outs.length > s.cols) := by omega
    have htc : s.termCode ≠ SQLITE_ROW := by
      simp only [cursorWF, Bool.and_eq_true, bne_iff_ne, ne_eq] at hwf
      exact hwf.1
    cases fi with
    | true =>
      rw [advance_eq_first s cb ret outs hg]
      by_cases hrow : ret ≠ SQLITE_ROW
      · rw [if_pos hrow]
        exact ⟨hwf, rfl, fun _ => hrow⟩
      · rw [if_neg hrow]
        push_neg at hrow
        refine ⟨?_, rfl, fun h => absurd h (by simp)⟩
        simp [cursorWF, htc, hrow]
    | false =>
      rw [advance_eq_step s cb ret outs hg]
      by_cases hlt : s.pos < s.rows.length
      · have hstep : sqlite3_step s =
            ({ s with pos := s.pos + 1, stepCount := s.stepCount + 1 }, SQLITE_ROW) := by
          unfold sqlite3_step
          rw [if_pos hlt]
        rw [hstep]
        have hnr : ¬ ((SQLITE_ROW : Int) ≠ SQLITE_ROW) := by simp
        rw [if_neg hnr]
        refine ⟨?_, rfl, fun h => absurd h (by simp)⟩
        simp [cursorWF, htc]
      · have hpos : s.rows.length ≤ s.pos := by omega
        rw [sqlite3_step_exhausted s hpos, if_pos (htc : s.termCode ≠ SQLITE_ROW)]
        refine ⟨?_, rfl, fun _ => htc⟩
        simp [cursorWF, htc, hpos]

/-- Once a well-formed cursor is exhausted, every further sequence of
guarded advances throws nothing, reports no row each time, and keeps the
retained result code. -/
theorem advanceMany_exhausted (outss : List (List (OutTy × OutVal))) :
    ∀ q : QueryResult, cursorWF q = true → q.ret ≠ SQLITE_ROW →
    (∀ o ∈ outss, o.length ≤ q.colsOf) →
    (advanceMany q outss).1 =
      outss.map (fun _ => ((none : Option Int), false, q.ret)) ∧
    (advanceMany q outss).2.ret = q.ret := by
  induction outss with
  | nil => exact fun q _ _ _ => ⟨rfl, rfl⟩
  | cons outs rest ih =>
    intro q hwf hret hlen
    obtain ⟨h1, h2, h3, h4, h5, h6⟩ :=
      advance_exhausted q outs hwf hret (hlen outs (by simp))
    have ih' := ih ((q.advance outs).2.2.2) h5 (h4 ▸ hret)
      (fun o ho => h6 ▸ hlen o (List.mem_cons_of_mem _ ho))
    constructor
    · simp only [advanceMany, List.map_cons]
      rw [h1, h3, h4, ih'.1, h4]
    · simp only [advanceMany]
      rw [ih'.2, h4]

/-- A query over zero rows: the construction-time step already reports
SQLITE_DONE and the cursor invariant holds. -/
theorem construct_zero_rows (s : StmtHandle) (cb : Nat) (hrows : s.rows = [])
    (htc : s.termCode = SQLITE_DONE) :
    (QueryResult.construct s cb).ret = SQLITE_DONE ∧
    cursorWF (QueryResult.construct s cb) = true := by
  constructor
  · show (sqlite3_step s).2 = SQLITE_DONE
    unfold sqlite3_step
    rw [if_neg (by simp [hrows])]
    exact htc
  · exact cursorWF_construct s cb (by rw [htc]; decide)

end ExhaustionLemmas

/-- C3: once the engine reports no more rows, that advance reports no row;
the cursor remains valid, retains its result code (queryable through
resultCode), and every further guarded advance on the same cursor also
reports no row; in particular a zero-row query's first advance and all
later advances report no row.  Stated as: construction establishes the
cursor invariant; every guarded advance preserves it and exhausts the
cursor when it reports no row; from an exhausted well-formed cursor every
further sequence of guarded advances reports no row with the retained
code; and for a zero-row statement every advance from construction on
reports no row with code SQLITE_DONE. -/
theorem C3_cursor_exhaustion :
    (∀ (s : StmtHandle) (cb : Nat), s.termCode ≠ SQLITE_ROW →
      cursorWF (QueryResult.construct s cb) = true) ∧
    (∀ (q : QueryResult) (outs : List (OutTy × OutVal)),
      cursorWF q = true → outs.length ≤ q.colsOf →
      cursorWF ((q.advance outs).2.2.2) = true ∧
      ((q.advance outs).2.2.2).colsOf = q.colsOf ∧
      ((q.advance outs).2.2.1 = false →
        ((q.advance outs).2.2.2).ret ≠ SQLITE_ROW)) ∧
    (∀ (q : QueryResult) (outss : List (List (OutTy × OutVal))),
      cursorWF q = true → q.ret ≠ SQLITE_ROW →
      (∀ o ∈ outss, o.length ≤ q.colsOf) →
      (advanceMany q outss).1 =
        outss.map (fun _ => ((none : Option Int), false, q.ret)) ∧
      (advanceMany q outss).2.resultCode = q.resultCode) ∧
    (∀ (s : StmtHandle) (cb : Nat) (outss : List (List (OutTy × OutVal))),
      s.rows = [] → s.termCode = SQLITE_DONE →
      (∀ o ∈ outss, o.length ≤ s.cols) →
      (advanceMany (QueryResult.construct s cb) outss).1 =
        outss.map (fun _ => ((none : Option Int), false, SQLITE_DONE))) := by
  refine ⟨cursorWF_construct, advance_preserves_wf,
    fun q outss hwf hret hlen => advanceMany_exhausted outss q hwf hret hlen, ?_⟩
  intro s cb outss hrows htc hlen
  obtain ⟨hret, hwf⟩ := construct_zero_rows s cb hrows htc
  have hcols : (QueryResult.construct s cb).colsOf = s.cols :=
    (sqlite3_step_preserves s).1
  have h := advanceMany_exhausted outss (QueryResult.construct s cb) hwf
    (by rw [hret]; decide) (fun o ho => by rw [hcols]; exact hlen o ho)
  rw [h.1, hret]

/-- C3 witness: on a concrete zero-row statement, two successive advances
both report no row with code SQLITE_DONE and throw nothing. -/
theorem C3_witness :
    (advanceMany (QueryResult.construct emptyStmt 0)
        [[(.intTy, .intVal 0)], []]).1 =
      [(none, false, SQLITE_DONE), (none, false, SQLITE_DONE)] :=
  C3_cursor_exhaustion.2.2.2 emptyStmt 0 [[(.intTy, .intVal 0)], []]
    rfl rfl (by decide)

end SQLiteWrapper
